import Mathlib

/-!
Verification of `chatgpt_to_markdown.py` (ChatGPT-JSON-To-Markdown).

Shallow embedding of the two core components of the converter:

* `build_conversation_chain` (source lines 44-137): path selection over the
  `mapping` graph plus per-node filtering / content-type text extraction;
* `ts_to_str` (source lines 33-41) and the rendering part of
  `json_to_markdown` (source lines 140-199).

Modelling conventions:

* Parsed JSON values are `JVal` (Python `None` is `JVal.null`).  Numeric
  timestamps are modelled as integers (`JVal.num : Int`).
* The embedding's domain for documents is the structurally-valid shape
  (`PyDoc` / `PyNode` / `PyMessage` ...): the object/list skeleton of the
  export is as produced by the exporter, while every field may be absent
  (`Option`), empty, or be a dangling identifier.  Fields whose raw value
  can be an arbitrary JSON value without making the source raise before
  the behaviour of interest (`title`, roles, `asset_pointer`,
  `is_visually_hidden_from_conversation`, model slugs at document level,
  `parts` entries, `content_type`) are kept as raw `JVal`s.  An `Option`
  field being `none` corresponds to the key being absent (for `parent`,
  `children`, `message`, `create_time` it also covers JSON `null`, which
  the source treats identically via `is None` / truthiness checks).
* Python exceptions are modelled with `Except PyErr`; a loop of the source
  that would run forever (a `parent`/`children` cycle) is modelled as the
  distinguished error `PyErr.nonTermination` by giving the loop
  `mapping.length + 1` fuel, which is enough for every terminating run of
  the source (a terminating walk never revisits a node).
* Python truthiness is `truthy`; `str()` is `pyStr` (its string-`repr`
  used inside list/dict display is faithful for printable characters;
  `\xNN` escapes of non-printables are not generated — no claim exercises
  them).  `str.strip()` is `pyStrip` (ASCII whitespace).
-/

/-- A parsed JSON value (also used for Python runtime values reaching the
converter: JSON `null` / Python `None` is `JVal.null`).  Timestamps are
modelled as integers. -/
inductive JVal where
  | null : JVal
  | bool : Bool → JVal
  | num : Int → JVal
  | str : String → JVal
  | arr : List JVal → JVal
  | obj : List (String × JVal) → JVal
deriving Repr

/-- Python truthiness (`bool(v)`): `None`, `False`, `0`, `""`, `[]`, `{}`
are falsy, everything else is truthy. -/
def truthy : JVal → Bool
  | .null => false
  | .bool b => b
  | .num n => n != 0
  | .str s => s != ""
  | .arr xs => !xs.isEmpty
  | .obj kvs => !kvs.isEmpty

/-- Python `d.get(key)` on a parsed JSON object (association list keyed by
strings; parsed dicts have unique keys, lookup takes the first match). -/
def jGet : List (String × JVal) → String → Option JVal
  | [], _ => none
  | (k, v) :: rest, key => if k = key then some v else jGet rest key

/-- Python `repr` of a string: quote choice as in CPython (single quotes
unless the string contains a single quote but no double quote), escaping
backslashes, the chosen quote, and the common control characters. -/
def strRepr (s : String) : String :=
  let sq : Char := Char.ofNat 39
  let dq : Char := Char.ofNat 34
  let q := if s.contains sq && !(s.contains dq) then dq else sq
  let esc : Char → String := fun c =>
    if c = '\\' then "\\\\"
    else if c = q then "\\" ++ String.singleton q
    else if c = '\n' then "\\n"
    else if c = '\r' then "\\r"
    else if c = '\t' then "\\t"
    else String.singleton c
  String.singleton q ++ String.join (s.toList.map esc) ++ String.singleton q

mutual

/-- Python `repr` of a parsed JSON value. -/
def pyRepr : JVal → String
  | .null => "None"
  | .bool b => if b then "True" else "False"
  | .num n => toString n
  | .str s => strRepr s
  | .arr xs => "[" ++ pyReprSeq xs ++ "]"
  | .obj kvs => "\x7b" ++ pyReprKVs kvs ++ "\x7d"

/-- Comma-separated `repr`s of the elements of a Python list. -/
def pyReprSeq : List JVal → String
  | [] => ""
  | [x] => pyRepr x
  | x :: y :: rest => pyRepr x ++ ", " ++ pyReprSeq (y :: rest)

/-- Comma-separated `key: value` `repr`s of the items of a Python dict. -/
def pyReprKVs : List (String × JVal) → String
  | [] => ""
  | [(k, v)] => strRepr k ++ ": " ++ pyRepr v
  | (k, v) :: x :: rest => strRepr k ++ ": " ++ pyRepr v ++ ", " ++ pyReprKVs (x :: rest)

end

/-- Python `str()` of a parsed JSON value (`str` of a string is the string
itself, everything else coincides with `repr`). -/
def pyStr : JVal → String
  | .str s => s
  | v => pyRepr v

/-- Python `str.strip()` with no argument: remove whitespace from both
ends (ASCII whitespace; the exotic Unicode space classes are not
exercised by any claim). -/
def pyStrip (s : String) : String :=
  String.mk (((s.data.dropWhile Char.isWhitespace).reverse.dropWhile Char.isWhitespace).reverse)

/-- The Python exceptions the source can raise (plus `nonTermination`,
which stands for a source loop that would run forever). -/
inductive PyErr where
  | keyError
  | typeError
  | valueError
  | nonTermination
deriving DecidableEq, Repr

/-! ### `ts_to_str` (source lines 33-41) -/

/-- Civil date from a count of days since the Unix epoch (floor-division
form of the standard `civil_from_days` algorithm); returns
`(year, month, day)`. -/
def civilFromDays (z0 : Int) : Int × Int × Int :=
  let z := z0 + 719468
  let era := z / 146097
  let doe := z - era * 146097
  let yoe := (doe - doe / 1460 + doe / 36524 - doe / 146096) / 365
  let y := yoe + era * 400
  let doy := doe - (365 * yoe + yoe / 4 - yoe / 100)
  let mp := (5 * doy + 2) / 153
  let d := doy - (153 * mp + 2) / 5 + 1
  let m := if mp < 10 then mp + 3 else mp - 9
  (if m ≤ 2 then y + 1 else y, m, d)

/-- The fixed UTC+8 offset (`CST = timezone(timedelta(hours=8))`,
source line 24), in seconds. -/
def cstOffset : Int := 8 * 3600

/-- Year of the civil UTC datetime denoted by a Unix timestamp (the
intermediate datetime `fromtimestamp` builds before applying the tzinfo
offset). -/
def utcYear (n : Int) : Int :=
  (civilFromDays (n / 86400)).1

/-- Year of the civil UTC+8 datetime denoted by a Unix timestamp (the
final result after `fromutc` adds the fixed offset). -/
def cstYear (n : Int) : Int :=
  (civilFromDays ((n + cstOffset) / 86400)).1

/-- Predicate: `datetime.fromtimestamp(n, tz=CST)` succeeds exactly when
both civil datetimes CPython goes through lie in `datetime`'s
representable years 1..9999: it first constructs the intermediate UTC
datetime (range-checked by the `datetime` constructor), then
`timezone.fromutc` adds the +8h offset (whose result is range-checked by
the `timedelta` addition).  Equivalently,
`-62135596800 ≤ n ≤ 253402271999`. -/
def tsInRange (n : Int) : Bool :=
  (1 ≤ utcYear n && utcYear n ≤ 9999) && (1 ≤ cstYear n && cstYear n ≤ 9999)

/-- Zero-pad a decimal numeral to width `w`. -/
def padNum (w : Nat) (n : Nat) : String :=
  let s := toString n
  if s.length < w then String.mk (List.replicate (w - s.length) '0') ++ s else s

/-- Formatting: `datetime.fromtimestamp(n, tz=CST).strftime("%Y-%m-%d %H:%M:%S")` for
an in-range integer timestamp. -/
def fmtTsCST (n : Int) : String :=
  let total := n + cstOffset
  let days := total / 86400
  let sod := (total % 86400).toNat
  let ymd := civilFromDays days
  padNum 4 ymd.1.toNat ++ "-" ++ padNum 2 ymd.2.1.toNat ++ "-" ++ padNum 2 ymd.2.2.toNat
    ++ " " ++ padNum 2 (sod / 3600) ++ ":" ++ padNum 2 (sod % 3600 / 60)
    ++ ":" ++ padNum 2 (sod % 60)

/-- Model of `datetime.fromtimestamp(v, tz=CST)` followed by `strftime`:
raises `TypeError` on a non-numeric argument (`None` included; the
source checks for `None` before calling it); out of range (`tsInRange`)
it raises `ValueError` from the intermediate UTC `datetime` constructor
or `OverflowError` from the `fromutc` offset addition — both are in the
source's caught `(ValueError, OSError, OverflowError)` tuple, so this
integer model folds them into the single out-of-range error. -/
def datetimeFromtimestampCST : JVal → Except PyErr String
  | .num n => if tsInRange n then .ok (fmtTsCST n) else .error .valueError
  | .bool b => if tsInRange (if b then 1 else 0) then .ok (fmtTsCST (if b then 1 else 0)) else .error .valueError
  | _ => .error .typeError

/-- Source `ts_to_str` (lines 33-41): `None` in, `None` out; otherwise
format via `datetime.fromtimestamp(ts, tz=CST)`, catching
`ValueError`/`OSError`/`OverflowError` (out-of-range) as `None`.  Any
other exception (a `TypeError` from a non-numeric argument) propagates. -/
def ts_to_str (v : JVal) : Except PyErr (Option String) :=
  match v with
  | .null => .ok none
  | w =>
    match datetimeFromtimestampCST w with
    | .ok s => .ok (some s)
    | .error .valueError => .ok none
    | .error e => .error e

/-! ### The structurally-valid document shape (spec §3) -/

/-- The `message.metadata` object: leaf values are raw (`is_visually_hidden_from_conversation`
is used only through truthiness); the model slugs must be strings (or
absent/null, `none`) for the renderer's `' · '.join` not to raise, hence
`Option String` (`some ""` is a present-but-empty, falsy, slug). -/
structure PyMeta where
  is_visually_hidden : Option JVal
  model_slug : Option String
  resolved_model_slug : Option String
deriving Repr

/-- The `message.content` object.  `content_type` is raw (only compared against the
known tags); `parts`, when present, is a list of raw values; `text` must
be a string (or absent) for `text.strip()` not to raise. -/
structure PyContent where
  content_type : Option JVal
  parts : Option (List JVal)
  text : Option String
deriving Repr

/-- A `message` payload.  `author_role` is the value at
`message.author.role` (`none` when `author` or `role` is absent — both
default to `""` in the source).  `create_time` is an integer timestamp or
absent (`none` also covers JSON `null`: both reach `ts_to_str` as
`None`). -/
structure PyMessage where
  author_role : Option JVal
  content : Option PyContent
  metadata : Option PyMeta
  create_time : Option Int
deriving Repr

/-- One entry of `mapping`.  `parent` is a node identifier, `""`, or
absent (`none` also covers JSON `null`: the source tests `is None` and
truthiness only); `children` is a list of identifiers or absent (`none`
also covers `null`, which behaves like the absent default in the only
use `children[0] if children else None`). -/
structure PyNode where
  parent : Option String
  children : Option (List String)
  message : Option PyMessage
deriving Repr

/-- The top-level document.  `mapping` is the insertion-ordered dict of
nodes (`none` = key absent, defaulting to `{}`).  `title` is raw (`none`
= key absent — a present `null` is `some JVal.null`). -/
structure PyDoc where
  mapping : Option (List (String × PyNode))
  current_node : Option String
  title : Option JVal
  create_time : Option Int
  update_time : Option Int
  default_model_slug : Option JVal
  conversation_id : Option JVal
deriving Repr

/-- Support for `mapping[nid]` / `nid in mapping`: first-match association
lookup (parsed dicts have unique keys). -/
def lookupNode : List (String × PyNode) → String → Option PyNode
  | [], _ => none
  | (k, v) :: rest, key => if k = key then some v else lookupNode rest key

/-- The record dict appended by `build_conversation_chain`
(source lines 130-135).  `role` is a string here because only the roles
`"user"`/`"assistant"`/`"tool"` pass the filter. -/
structure Record where
  role : String
  text : String
  create_time : Option Int
  model : Option String
deriving DecidableEq, Repr

/-- Python `a or b` on the two model-slug fields (source line 134):
the first operand if truthy, otherwise the second unchanged. -/
def pyOrStr (a b : Option String) : Option String :=
  if a.getD "" ≠ "" then a else b

/-! ### Text extraction (content-type dispatch, source lines 93-125) -/

/-- Source `"\n".join(str(p) for p in parts if p)` (lines 97 and 125). -/
def joinParts (ps : List JVal) : String :=
  String.intercalate "\n" ((ps.filter truthy).map pyStr)

/-- The `multimodal_text` per-part loop (source lines 104-114): strings
kept, dicts rendered as an image reference when `asset_pointer` is
truthy and as the generic placeholder otherwise, all other values
skipped. -/
def mmParts : List JVal → List String
  | [] => []
  | .str s :: rest => s :: mmParts rest
  | .obj kvs :: rest =>
      let ap := (jGet kvs "asset_pointer").getD (.str "")
      (if truthy ap then "![image](" ++ pyStr ap ++ ")" else "[多模态内容]") :: mmParts rest
  | _ :: rest => mmParts rest

/-- The content-type dispatch (source lines 93-125): the extracted text,
or `none` for the two content types the loop skips with `continue`
(`user_editable_context`, `reasoning_recap`). -/
def extract_text (c : PyContent) : Option String :=
  match c.content_type.getD (.str "") with
  | .str "text" => some (joinParts (c.parts.getD []))
  | .str "code" => some (c.text.getD "")
  | .str "execution_output" => some (c.text.getD "")
  | .str "multimodal_text" => some (String.intercalate "\n" (mmParts (c.parts.getD [])))
  | .str "user_editable_context" => none
  | .str "reasoning_recap" => none
  | _ =>
      let parts := c.parts.getD []
      if parts.isEmpty then some "" else some (joinParts parts)

/-- Empty-dict defaults for `msg.get("metadata", {})` /
`msg.get("content", {})`. -/
def emptyMeta : PyMeta := ⟨none, none, none⟩

/-- See `emptyMeta`. -/
def emptyContent : PyContent := ⟨none, none, none⟩

/-- The per-node filter body of the second loop of
`build_conversation_chain` (source lines 76-135): the record appended
for a node, or `none` when the node is skipped by a `continue`. -/
def emitRecord (node : PyNode) : Option Record :=
  match node.message with
  | none => none
  | some msg =>
    let meta := msg.metadata.getD emptyMeta
    if truthy (meta.is_visually_hidden.getD .null) then none
    else
      match msg.author_role.getD (.str "") with
      | .str role =>
        if role = "user" ∨ role = "assistant" ∨ role = "tool" then
          match extract_text (msg.content.getD emptyContent) with
          | none => none
          | some text =>
            if pyStrip text = "" then none
            else some { role := role, text := pyStrip text,
                        create_time := msg.create_time,
                        model := pyOrStr meta.model_slug meta.resolved_model_slug }
        else none
      | _ => none

/-- Composition `(lookupNode m nid).bind emitRecord`: the record the second loop
emits for the path entry `nid`. -/
def emitAt (m : List (String × PyNode)) (nid : String) : Option Record :=
  (lookupNode m nid).bind emitRecord

/-! ### Path selection (source lines 52-71) -/

/-- The `while nid:` parent walk (source lines 66-70), returning the
collected identifiers tip-first.  `mapping[nid]` on an identifier that is
not a key raises `KeyError`; exhausted fuel stands for a parent cycle,
on which the source loops forever. -/
def walkUp (m : List (String × PyNode)) : Nat → String → Except PyErr (List String)
  | 0, _ => .error .nonTermination
  | fuel + 1, nid =>
    match lookupNode m nid with
    | none => .error .keyError
    | some node =>
      match node.parent with
      | none => .ok [nid]
      | some p =>
        if p = "" then .ok [nid]
        else
          match walkUp m fuel p with
          | .ok rest => .ok (nid :: rest)
          | .error e => .error e

/-- The `while current:` first-child descent (source lines 58-63).  The
loop head tests the current identifier's truthiness before every
iteration, including the very first: an empty identifier — also an
empty first root — produces no visit at all.  `children` defaulting: an
absent (or `null`) `children` behaves exactly like `[]` in
`children[0] if children else None`. -/
def descend (m : List (String × PyNode)) : Nat → String → Except PyErr (List String)
  | 0, _ => .error .nonTermination
  | fuel + 1, cur =>
    if cur = "" then .ok []
    else
      match lookupNode m cur with
      | none => .error .keyError
      | some node =>
        match node.children.getD [] with
        | [] => .ok [cur]
        | ch :: _ =>
          match descend m fuel ch with
          | .ok rest => .ok (cur :: rest)
          | .error e => .error e

/-- Source `[nid for nid, node in mapping.items() if node.get("parent") is None]`
(source line 55), in mapping iteration order. -/
def rootIds (m : List (String × PyNode)) : List String :=
  (m.filter (fun p => p.2.parent = none)).map (·.1)

/-- The fallback branch (source lines 54-63): no root, empty chain;
otherwise first-child descent from the first root (an empty-string
first root fails `descend`'s loop-entry truthiness test and yields the
empty chain, exactly as the source's `while current:` does). -/
def fallbackChain (m : List (String × PyNode)) (fuel : Nat) : Except PyErr (List String) :=
  match rootIds m with
  | [] => .ok []
  | r :: _ => descend m fuel r

/-- Source condition `not current_node_id or current_node_id not in mapping`
(source line 53): truthiness of the identifier, then membership. -/
def usesFallback (data : PyDoc) : Bool :=
  match data.current_node with
  | none => true
  | some c => c = "" || (lookupNode (data.mapping.getD []) c).isNone

/-- Path selection (source lines 49-71): the ordered chain of node
identifiers the second loop visits.  The fuel `mapping.length + 1`
suffices for every terminating run of the source loops. -/
def selectChain (data : PyDoc) : Except PyErr (List String) :=
  if usesFallback data then
    fallbackChain (data.mapping.getD []) ((data.mapping.getD []).length + 1)
  else
    match data.current_node with
    | some c =>
      match walkUp (data.mapping.getD []) ((data.mapping.getD []).length + 1) c with
      | .ok path => .ok path.reverse
      | .error e => .error e
    | none => .ok []

/-- The filter loop `for nid in chain:` (source lines 74-135). -/
def processChain (m : List (String × PyNode)) : List String → Except PyErr (List Record)
  | [] => .ok []
  | nid :: rest =>
    match lookupNode m nid with
    | none => .error .keyError
    | some node =>
      match processChain m rest with
      | .ok recs => .ok ((emitRecord node).elim recs (· :: recs))
      | .error e => .error e

/-- Source `build_conversation_chain` (lines 44-137). -/
def build_conversation_chain (data : PyDoc) : Except PyErr (List Record) :=
  match selectChain data with
  | .ok chain => processChain (data.mapping.getD []) chain
  | .error e => .error e

/-! ### Renderer (`json_to_markdown`, source lines 140-199) -/

/-- Python truthiness of a string-or-`None` value (`None` and `""`
falsy). -/
def truthyOptStr : Option String → Bool
  | some s => s != ""
  | none => false

/-- The value `msg.get("create_time")` / `data.get("create_time")` passes
to `ts_to_str`: `None` for an absent (or `null`) timestamp. -/
def optIntJVal : Option Int → JVal
  | none => .null
  | some n => .num n

/-- Source `ROLE_LABELS.get(msg["role"], msg["role"])` (lines 26-30
and 177). -/
def roleLabel (r : String) : String :=
  if r = "user" then "👤 User"
  else if r = "assistant" then "🤖 Assistant"
  else if r = "tool" then "🔧 Tool"
  else r

/-- The per-message body of the renderer loop (source lines 176-197):
the lines appended for one record (`last` tells whether the trailing
separator is suppressed). -/
def render_message (m : Record) (last : Bool) : Except PyErr (List String) :=
  match ts_to_str (optIntJVal m.create_time) with
  | .error e => .error e
  | .ok time_str =>
    let model_str := m.model.getD ""
    let header0 := "## " ++ roleLabel m.role
    let annotations : List String :=
      match time_str with
      | some s => if s ≠ "" then [s] else []
      | none => []
    let annotations :=
      if model_str ≠ "" ∧ m.role = "assistant" then annotations ++ [model_str]
      else annotations
    let header :=
      if annotations.isEmpty then header0
      else header0 ++ ("  <sub>" ++ String.intercalate " · " annotations ++ "</sub>")
    .ok ([header, "", m.text, ""] ++ (if last then [] else ["---\n"]))

/-- The renderer loop over all records (source lines 176-197). -/
def render_messages : List Record → Except PyErr (List String)
  | [] => .ok []
  | m :: rest =>
    match render_message m rest.isEmpty with
    | .error e => .error e
    | .ok ls =>
      match render_messages rest with
      | .ok ls2 => .ok (ls ++ ls2)
      | .error e => .error e

/-- The `lines` list built by `json_to_markdown` (source lines 140-197),
before the final `"\n".join`.  `stem` is the source file's base name
(the default for an absent `title`). -/
def render_lines (doc : PyDoc) (stem : String) : Except PyErr (List String) :=
  let title := doc.title.getD (.str stem)
  match ts_to_str (optIntJVal doc.create_time) with
  | .error e => .error e
  | .ok create_time =>
    match ts_to_str (optIntJVal doc.update_time) with
    | .error e => .error e
    | .ok update_time =>
      let model := doc.default_model_slug.getD (.str "")
      let conv_id := doc.conversation_id.getD (.str "")
      match build_conversation_chain doc with
      | .error e => .error e
      | .ok messages =>
        let meta_items : List String := []
        let meta_items :=
          if truthyOptStr create_time then
            meta_items ++ ["- **创建时间**: " ++ create_time.getD ""]
          else meta_items
        let meta_items :=
          if truthyOptStr update_time then
            meta_items ++ ["- **更新时间**: " ++ update_time.getD ""]
          else meta_items
        let meta_items :=
          if truthy model then meta_items ++ ["- **模型**: " ++ pyStr model]
          else meta_items
        let meta_items :=
          if truthy conv_id then meta_items ++ ["- **会话 ID**: `" ++ pyStr conv_id ++ "`"]
          else meta_items
        let meta_items := meta_items ++ ["- **消息数**: " ++ toString messages.length]
        let lines : List String := ["# " ++ pyStr title ++ "\n"]
        let lines :=
          if meta_items.isEmpty then lines
          else lines ++ [String.intercalate "\n" meta_items, ""]
        let lines := lines ++ ["---\n"]
        match render_messages messages with
        | .ok msgLines => .ok (lines ++ msgLines)
        | .error e => .error e

/-- Source `json_to_markdown` minus the file I/O (lines 140-199): the
final Markdown string for a parsed document and the input file's stem. -/
def json_to_markdown (doc : PyDoc) (stem : String) : Except PyErr String :=
  match render_lines doc stem with
  | .ok lines => .ok (String.intercalate "\n" lines)
  | .error e => .error e

/-! ### Spec-side characterisations (used in the claim statements) -/

/-- The parent-walk of spec §4.1 step 1, as a relation: `path` is the
tip-first chain of identifiers obtained from `tip` by following `parent`
references, each of which resolves in the mapping, ending at the node
whose `parent` is absent (an empty `parent`, which the walk's truthiness
test also treats as absent, likewise ends the chain). -/
inductive ParentChain (m : List (String × PyNode)) : String → List String → Prop where
  | stop : ∀ nid node, lookupNode m nid = some node →
      node.parent = none ∨ node.parent = some "" →
      ParentChain m nid [nid]
  | step : ∀ nid node p rest, lookupNode m nid = some node →
      node.parent = some p → p ≠ "" →
      ParentChain m p rest →
      ParentChain m nid (nid :: rest)

/-- The first-child descent of spec §4.1 step 1, as a relation: `path`
descends from `start` by always following the first entry of `children`,
each followed identifier resolving in the mapping, until a node has no
children (an empty-string first child, which the loop's truthiness test
treats as the end, likewise ends the descent). -/
inductive ChildDescent (m : List (String × PyNode)) : String → List String → Prop where
  | stop : ∀ nid node, lookupNode m nid = some node →
      node.children.getD [] = [] ∨ (∃ rest, node.children.getD [] = "" :: rest) →
      ChildDescent m nid [nid]
  | step : ∀ nid node ch chrest rest, lookupNode m nid = some node →
      node.children.getD [] = ch :: chrest → ch ≠ "" →
      ChildDescent m ch rest →
      ChildDescent m nid (nid :: rest)

/-- The per-part `multimodal_text` rendering as the spec words it: a
plain-text part kept as-is, a structured part with a truthy
`asset_pointer` rendered as an image reference embedding the pointer, a
structured part without one rendered as the generic placeholder, any
other part dropped. -/
def mmRenderSpec : JVal → Option String
  | .str s => some s
  | .obj kvs =>
      match jGet kvs "asset_pointer" with
      | some ap => if truthy ap then some ("![image](" ++ pyStr ap ++ ")") else some "[多模态内容]"
      | none => some "[多模态内容]"
  | _ => none

/-- A part that is a plain string or a structured (dict) entry — the two
shapes the `multimodal_text` loop renders. -/
def strOrDict : JVal → Bool
  | .str _ => true
  | .obj _ => true
  | _ => false

/-- The timestamp entries of a message header's annotation list: the
formatted time when present (and non-empty). -/
def timeAnn : Option String → List String
  | some s => if s ≠ "" then [s] else []
  | none => []

/-- The model entries of a message header's annotation list: the model
identifier, only for the assistant role and only when truthy. -/
def modelAnn (m : Record) : List String :=
  if m.model.getD "" ≠ "" ∧ m.role = "assistant" then [m.model.getD ""] else []

/-- The small-annotation suffix of a message subheading: empty for no
annotations, otherwise the entries joined by `·` inside `<sub>`. -/
def subAnnot (anns : List String) : String :=
  if anns.isEmpty then ""
  else "  <sub>" ++ String.intercalate " · " anns ++ "</sub>"

/-! ### Helper lemmas -/

/-- A successful `mapping[x]` lookup means `x` is among the mapping's
keys. -/
theorem lookupNode_isSome_mem : ∀ (m : List (String × PyNode)) (x : String),
    (lookupNode m x).isSome → x ∈ m.map Prod.fst
  | [], x, h => by simp [lookupNode] at h
  | (k, v) :: rest, x, h => by
    by_cases hk : k = x
    · simp [hk]
    · simp only [lookupNode, if_neg hk] at h
      exact List.mem_cons_of_mem _ (lookupNode_isSome_mem rest x h)

/-- A duplicate-free list of resolving identifiers is no longer than the
mapping. -/
theorem nodup_length_le {p : List String} {m : List (String × PyNode)}
    (hnd : p.Nodup) (h : ∀ x ∈ p, (lookupNode m x).isSome) :
    p.length ≤ m.length := by
  calc p.length = p.toFinset.card := (List.toFinset_card_of_nodup hnd).symm
    _ ≤ (m.map Prod.fst).toFinset.card := by
        refine Finset.card_le_card ?_
        intro x hx
        rw [List.mem_toFinset] at hx ⊢
        exact lookupNode_isSome_mem m x (h x hx)
    _ ≤ (m.map Prod.fst).length := (m.map Prod.fst).toFinset_card_le
    _ = m.length := List.length_map _ _

/-- When every identifier of the chain resolves, the filter loop
succeeds and emits exactly the per-node records, in chain order. -/
theorem processChain_ok : ∀ (m : List (String × PyNode)) (ids : List String),
    (∀ id ∈ ids, (lookupNode m id).isSome) →
    processChain m ids = .ok (ids.filterMap (emitAt m))
  | _, [], _ => rfl
  | m, nid :: rest, h => by
    obtain ⟨node, hn⟩ := Option.isSome_iff_exists.mp (h nid (List.mem_cons_self _ _))
    have ih := processChain_ok m rest (fun id hid => h id (List.mem_cons_of_mem _ hid))
    simp only [processChain, hn, ih, List.filterMap_cons, emitAt, Option.some_bind]
    cases emitRecord node <;> simp

/-- Every identifier on a spec-side parent chain resolves. -/
theorem parentChain_lookup_isSome {m : List (String × PyNode)} {c : String}
    {path : List String} (h : ParentChain m c path) :
    ∀ x ∈ path, (lookupNode m x).isSome := by
  induction h with
  | stop nid node hl _ =>
    intro x hx
    rw [List.mem_singleton] at hx
    subst hx; simp [hl]
  | step nid node p rest hl hp hne hrest ih =>
    intro x hx
    rcases List.mem_cons.mp hx with h1 | h2
    · subst h1; simp [hl]
    · exact ih x h2

/-- A spec-side parent chain starts at its tip. -/
theorem parentChain_head_eq {m : List (String × PyNode)} {c : String}
    {path : List String} (h : ParentChain m c path) : ∃ t, path = c :: t := by
  cases h with
  | stop nid node _ _ => exact ⟨[], rfl⟩
  | step nid node p rest _ _ _ _ => exact ⟨rest, rfl⟩

/-- With enough fuel, the source's parent walk computes exactly the
spec-side parent chain. -/
theorem walkUp_of_chain {m : List (String × PyNode)} {c : String}
    {path : List String} (h : ParentChain m c path) :
    ∀ fuel, path.length ≤ fuel → walkUp m fuel c = .ok path := by
  induction h with
  | stop nid node hl hp =>
    intro fuel hf
    cases fuel with
    | zero => simp at hf
    | succ f =>
      simp only [walkUp, hl]
      rcases hp with h1 | h1 <;> simp [h1]
  | step nid node p rest hl hp hne hrest ih =>
    intro fuel hf
    cases fuel with
    | zero => simp at hf
    | succ f =>
      have hr : rest.length ≤ f := by
        simp only [List.length_cons] at hf
        omega
      simp only [walkUp, hl, hp, if_neg hne, ih f hr]

/-- Every identifier on a spec-side first-child descent resolves. -/
theorem childDescent_lookup_isSome {m : List (String × PyNode)} {c : String}
    {path : List String} (h : ChildDescent m c path) :
    ∀ x ∈ path, (lookupNode m x).isSome := by
  induction h with
  | stop nid node hl _ =>
    intro x hx
    rw [List.mem_singleton] at hx
    subst hx; simp [hl]
  | step nid node ch chrest rest hl hch hne hrest ih =>
    intro x hx
    rcases List.mem_cons.mp hx with h1 | h2
    · subst h1; simp [hl]
    · exact ih x h2

/-- A spec-side first-child descent starts at its root. -/
theorem childDescent_head_eq {m : List (String × PyNode)} {c : String}
    {path : List String} (h : ChildDescent m c path) : ∃ t, path = c :: t := by
  cases h with
  | stop nid node _ _ => exact ⟨[], rfl⟩
  | step nid node ch chrest rest _ _ _ _ => exact ⟨rest, rfl⟩

/-- With enough fuel, the source's first-child descent from a truthy
(non-empty) start computes exactly the spec-side descent. -/
theorem descend_of_chain {m : List (String × PyNode)} {c : String}
    {path : List String} (h : ChildDescent m c path) :
    ∀ fuel, path.length + 1 ≤ fuel → c ≠ "" → descend m fuel c = .ok path := by
  induction h with
  | stop nid node hl hp =>
    intro fuel hf hc
    cases fuel with
    | zero => simp at hf
    | succ f =>
      simp only [descend, if_neg hc, hl]
      rcases hp with h1 | ⟨rest, h1⟩
      · simp [h1]
      · cases f with
        | zero => simp at hf
        | succ f2 => simp [h1, descend]
  | step nid node ch chrest rest hl hch hne hrest ih =>
    intro fuel hf hc
    cases fuel with
    | zero => simp at hf
    | succ f =>
      have hr : rest.length + 1 ≤ f := by
        simp only [List.length_cons] at hf
        omega
      simp only [descend, if_neg hc, hl, hch, ih f hr hne]

/-- Evaluation of `ts_to_str` on an integer timestamp: formatted when in range,
absent otherwise — in particular no exception. -/
theorem ts_to_str_num (n : Int) :
    ts_to_str (.num n) = if tsInRange n then .ok (some (fmtTsCST n)) else .ok none := by
  by_cases h : tsInRange n <;> simp [ts_to_str, datetimeFromtimestampCST, h]

/-- Totality: `ts_to_str` never raises on the values the pipeline feeds it
(absent/`null` or an integer timestamp). -/
theorem ts_to_str_optInt_ok (o : Option Int) :
    ∃ r, ts_to_str (optIntJVal o) = .ok r := by
  cases o with
  | none => exact ⟨none, rfl⟩
  | some n =>
    rw [optIntJVal, ts_to_str_num]
    by_cases h : tsInRange n
    · exact ⟨some (fmtTsCST n), by simp [h]⟩
    · exact ⟨none, by simp [h]⟩

/-- The renderer's per-message body never raises on a record produced by
the chain builder. -/
theorem render_message_ok (m : Record) (last : Bool) :
    ∃ ls, render_message m last = .ok ls := by
  obtain ⟨r, hr⟩ := ts_to_str_optInt_ok m.create_time
  exact ⟨_, by unfold render_message; rw [hr]⟩

/-- The renderer's message loop never raises. -/
theorem render_messages_ok (recs : List Record) :
    ∃ ls, render_messages recs = .ok ls := by
  induction recs with
  | nil => exact ⟨[], rfl⟩
  | cons m rest ih =>
    obtain ⟨ls1, h1⟩ := render_message_ok m rest.isEmpty
    obtain ⟨ls2, h2⟩ := ih
    exact ⟨ls1 ++ ls2, by simp [render_messages, h1, h2]⟩

/-- The `multimodal_text` loop is the per-part rendering of the spec,
part by part. -/
theorem mmParts_eq_filterMap : ∀ ps : List JVal,
    mmParts ps = ps.filterMap mmRenderSpec
  | [] => rfl
  | .str s :: rest => by
      simp [mmParts, mmRenderSpec, List.filterMap_cons, mmParts_eq_filterMap rest]
  | .obj kvs :: rest => by
      simp only [mmParts, List.filterMap_cons, mmRenderSpec, mmParts_eq_filterMap rest]
      cases h : jGet kvs "asset_pointer" with
      | none => simp [Option.getD, truthy]
      | some ap => by_cases ht : truthy ap <;> simp [ht]
  | .null :: rest => by simp [mmParts, mmRenderSpec, List.filterMap_cons, mmParts_eq_filterMap rest]
  | .bool b :: rest => by simp [mmParts, mmRenderSpec, List.filterMap_cons, mmParts_eq_filterMap rest]
  | .num n :: rest => by simp [mmParts, mmRenderSpec, List.filterMap_cons, mmParts_eq_filterMap rest]
  | .arr xs :: rest => by simp [mmParts, mmRenderSpec, List.filterMap_cons, mmParts_eq_filterMap rest]

/-- Parts that are neither strings nor dicts leave the `multimodal_text`
loop's output unchanged. -/
theorem mmParts_filter : ∀ ps : List JVal,
    mmParts (ps.filter strOrDict) = mmParts ps
  | [] => rfl
  | .str s :: rest => by simp [List.filter, strOrDict, mmParts, mmParts_filter rest]
  | .obj kvs :: rest => by simp [List.filter, strOrDict, mmParts, mmParts_filter rest]
  | .null :: rest => by simp [List.filter, strOrDict, mmParts, mmParts_filter rest]
  | .bool b :: rest => by simp [List.filter, strOrDict, mmParts, mmParts_filter rest]
  | .num n :: rest => by simp [List.filter, strOrDict, mmParts, mmParts_filter rest]
  | .arr xs :: rest => by simp [List.filter, strOrDict, mmParts, mmParts_filter rest]

/-! ### Claims -/

/-- A structurally-valid-but-incomplete document exercising the part of
C1's quantification that fails: node `a`'s `parent` refers to an
identifier not present in the mapping. -/
def c1Doc : PyDoc :=
  { mapping := some [("a", { parent := some "b", children := none, message := none })],
    current_node := some "a",
    title := none, create_time := none, update_time := none,
    default_model_slug := none, conversation_id := none }

/-- C1 counterexample: on a structurally-valid document whose
`current_node`'s `parent` refers to an identifier not present in the
mapping, `build_conversation_chain` does not return normally — the
`mapping[nid]` lookup in the parent walk raises `KeyError`, which
propagates out. -/
theorem c1_counterexample :
    build_conversation_chain c1Doc = .error .keyError := rfl

/-- C1 (amended): for every structurally-valid-but-incomplete document
whose traversal phase completes — every `parent` reference followed from
`current_node` (respectively every first-`children` reference followed
from the fallback root) resolves in the mapping and the followed chain
revisits no node — `build_conversation_chain` returns normally with a
(possibly empty) record list and no exception propagates out of it. -/
theorem c1_no_exception_when_chain_resolves (data : PyDoc)
    (hwalk : ∀ c, data.current_node = some c → usesFallback data = false →
      ∃ path, ParentChain (data.mapping.getD []) c path ∧ path.Nodup)
    (hdesc : usesFallback data = true →
      ∀ r rs, rootIds (data.mapping.getD []) = r :: rs →
        ∃ path, ChildDescent (data.mapping.getD []) r path ∧ path.Nodup) :
    ∃ recs, build_conversation_chain data = .ok recs := by
  cases hfb : usesFallback data with
  | true =>
    cases hroot : rootIds (data.mapping.getD []) with
    | nil =>
      refine ⟨[], ?_⟩
      simp [build_conversation_chain, selectChain, hfb, fallbackChain, hroot, processChain]
    | cons r rs =>
      by_cases hre : r = ""
      · refine ⟨[], ?_⟩
        subst hre
        simp [build_conversation_chain, selectChain, hfb, fallbackChain, hroot, descend,
          processChain]
      · obtain ⟨path, hd, hnd⟩ := hdesc hfb r rs hroot
        have hmem := childDescent_lookup_isSome hd
        have hlen : path.length ≤ (data.mapping.getD []).length := nodup_length_le hnd hmem
        have hdes := descend_of_chain hd ((data.mapping.getD []).length + 1) (by omega) hre
        refine ⟨path.filterMap (emitAt (data.mapping.getD [])), ?_⟩
        simp only [build_conversation_chain, selectChain, hfb, if_true, fallbackChain, hroot,
          hdes]
        exact processChain_ok _ _ hmem
  | false =>
    cases hc : data.current_node with
    | none => simp [usesFallback, hc] at hfb
    | some c =>
      obtain ⟨path, hp, hnd⟩ := hwalk c hc hfb
      have hmem := parentChain_lookup_isSome hp
      have hlen : path.length ≤ (data.mapping.getD []).length := nodup_length_le hnd hmem
      have hw := walkUp_of_chain hp ((data.mapping.getD []).length + 1) (by omega)
      refine ⟨path.reverse.filterMap (emitAt (data.mapping.getD [])), ?_⟩
      simp only [build_conversation_chain, selectChain, hfb, Bool.false_eq_true, if_false, hc,
        hw]
      exact processChain_ok _ _ (fun x hx => hmem x (List.mem_reverse.mp hx))

/-- The one-node document used by the C1 witness. -/
def c1WDoc : PyDoc :=
  { mapping := some [("a", { parent := none, children := none, message := none })],
    current_node := some "a",
    title := none, create_time := none, update_time := none,
    default_model_slug := none, conversation_id := none }

/-- C1 witness: a concrete document on which the amended theorem's
hypotheses hold. -/
theorem c1_witness :
    ∃ recs, build_conversation_chain c1WDoc = .ok recs := by
  refine c1_no_exception_when_chain_resolves c1WDoc ?_ ?_
  · intro c hc _
    obtain rfl : c = "a" := by injection hc with h; exact h.symm
    exact ⟨["a"], ParentChain.stop "a" _ rfl (Or.inl rfl), by decide⟩
  · intro hfb
    exact absurd hfb (by decide)

/-- C2: when `current_node` is set (truthy) and present in the mapping
and the tip-to-root parent walk resolves throughout (`ParentChain`), the
visited sequence is exactly the reverse of the parent walk — the
root-to-tip path — and the emitted records appear in that order. -/
theorem c2_current_node_path (data : PyDoc) (c : String) (path : List String)
    (hc : data.current_node = some c) (hne : c ≠ "")
    (hchain : ParentChain (data.mapping.getD []) c path) (hnd : path.Nodup) :
    build_conversation_chain data =
      .ok (path.reverse.filterMap (emitAt (data.mapping.getD []))) := by
  have hmem := parentChain_lookup_isSome hchain
  obtain ⟨t, ht⟩ := parentChain_head_eq hchain
  have hlk : (lookupNode (data.mapping.getD []) c).isSome :=
    hmem c (by rw [ht]; exact List.mem_cons_self _ _)
  have hfb : usesFallback data = false := by
    simp [usesFallback, hc, hne, Option.isNone_iff_eq_none]
    exact hlk
  have hlen : path.length ≤ (data.mapping.getD []).length := nodup_length_le hnd hmem
  have hw := walkUp_of_chain hchain ((data.mapping.getD []).length + 1) (by omega)
  simp only [build_conversation_chain, selectChain, hfb, Bool.false_eq_true, if_false, hc, hw]
  exact processChain_ok _ _ (fun x hx => hmem x (List.mem_reverse.mp hx))

/-- The two-node chain `r → a` used by the C2 witness. -/
def c2Doc : PyDoc :=
  { mapping := some [("r", { parent := none, children := some ["a"], message := none }),
                     ("a", { parent := some "r", children := none, message := none })],
    current_node := some "a",
    title := none, create_time := none, update_time := none,
    default_model_slug := none, conversation_id := none }

/-- C2 witness: a two-node chain `r → a` with `current_node = a`. -/
theorem c2_witness :
    build_conversation_chain c2Doc = .ok [] := by
  have h := c2_current_node_path c2Doc "a" ["a", "r"] rfl (by decide)
    (ParentChain.step "a" { parent := some "r", children := none, message := none } "r" ["r"]
      rfl rfl (by decide)
      (ParentChain.stop "r" { parent := none, children := some ["a"], message := none }
        rfl (Or.inl rfl)))
    (by decide)
  exact h.trans rfl

/-- C4: in the fallback branch (no truthy `current_node`, or one that is
not a mapping key), an absent root yields the empty record list; a first
root keyed by the empty string is treated as absent by the descent
loop's truthiness test and likewise yields the empty record list;
otherwise the visited sequence starts at the first parent-less node in
mapping order — "such a root" — and is the first-child descent from it
(`ChildDescent`), with records emitted in that order. -/
theorem c4_fallback_descent (data : PyDoc) (hfb : usesFallback data = true) :
    (rootIds (data.mapping.getD []) = [] → build_conversation_chain data = .ok []) ∧
    (∀ rs, rootIds (data.mapping.getD []) = "" :: rs →
      build_conversation_chain data = .ok []) ∧
    (∀ r rs path, rootIds (data.mapping.getD []) = r :: rs → r ≠ "" →
      ChildDescent (data.mapping.getD []) r path → path.Nodup →
      path.head? = some r ∧
      build_conversation_chain data =
        .ok (path.filterMap (emitAt (data.mapping.getD [])))) := by
  refine ⟨?_, ?_, ?_⟩
  · intro hroot
    simp [build_conversation_chain, selectChain, hfb, fallbackChain, hroot, processChain]
  · intro rs hroot
    simp [build_conversation_chain, selectChain, hfb, fallbackChain, hroot, descend,
      processChain]
  · intro r rs path hroot hre hd hnd
    obtain ⟨t, ht⟩ := childDescent_head_eq hd
    refine ⟨by rw [ht]; rfl, ?_⟩
    have hmem := childDescent_lookup_isSome hd
    have hlen : path.length ≤ (data.mapping.getD []).length := nodup_length_le hnd hmem
    have hdes := descend_of_chain hd ((data.mapping.getD []).length + 1) (by omega) hre
    simp only [build_conversation_chain, selectChain, hfb, if_true, fallbackChain, hroot, hdes]
    exact processChain_ok _ _ hmem

/-- The two-node mapping without a `current_node` used by the C4
witness. -/
def c4Doc : PyDoc :=
  { mapping := some [("r", { parent := none, children := some ["a"], message := none }),
                     ("a", { parent := some "r", children := none, message := none })],
    current_node := none,
    title := none, create_time := none, update_time := none,
    default_model_slug := none, conversation_id := none }

/-- C4 witness: no `current_node`; roots and a two-node first-child
descent. -/
theorem c4_witness :
    build_conversation_chain c4Doc = .ok [] := by
  have h := (c4_fallback_descent c4Doc rfl).2.2 "r" [] ["r", "a"] rfl (by decide)
    (ChildDescent.step "r" { parent := none, children := some ["a"], message := none }
      "a" [] ["a"] rfl rfl (by decide)
      (ChildDescent.stop "a" { parent := some "r", children := none, message := none }
        rfl (Or.inl rfl)))
    (by decide)
  exact h.2.trans rfl

/-- C3: along a resolving chain the filter loop emits exactly the
per-node records, and a node's record is present if and only if the node
has a `message`, the message is not marked hidden, its `author.role` is
one of `user`/`assistant`/`tool`, and the text extracted by the
content-type dispatch is non-empty after trimming; in particular the
dispatch extracts nothing for `user_editable_context` and
`reasoning_recap`, so such messages are never emitted even with
non-empty `parts`. -/
theorem c3_emission_iff :
    (∀ (m : List (String × PyNode)) (ids : List String),
      (∀ id ∈ ids, (lookupNode m id).isSome) →
      processChain m ids = .ok (ids.filterMap (emitAt m))) ∧
    (∀ node : PyNode, (emitRecord node).isSome ↔
      ∃ msg, node.message = some msg ∧
        truthy ((msg.metadata.getD emptyMeta).is_visually_hidden.getD .null) = false ∧
        (∃ role, msg.author_role.getD (.str "") = .str role ∧
          (role = "user" ∨ role = "assistant" ∨ role = "tool")) ∧
        (∃ t, extract_text (msg.content.getD emptyContent) = some t ∧ pyStrip t ≠ "")) ∧
    (∀ c : PyContent,
      c.content_type = some (.str "user_editable_context") ∨
      c.content_type = some (.str "reasoning_recap") →
      extract_text c = none) := by
  refine ⟨processChain_ok, ?_, ?_⟩
  · intro node
    rcases node with ⟨p, ch, msg⟩
    cases msg with
    | none => simp [emitRecord]
    | some m =>
      simp only [emitRecord]
      cases hh : truthy ((m.metadata.getD emptyMeta).is_visually_hidden.getD .null) with
      | true => simp [hh]
      | false =>
        simp only [hh, Bool.false_eq_true, if_false]
        cases hr : m.author_role.getD (.str "") with
        | str role =>
          by_cases hrole : role = "user" ∨ role = "assistant" ∨ role = "tool"
          · simp only [if_pos hrole]
            cases he : extract_text (m.content.getD emptyContent) with
            | none => simp [he]
            | some t =>
              by_cases htr : pyStrip t = ""
              · simp [he, htr]
              · simp only [if_neg htr, Option.isSome_some, true_iff]
                exact ⟨m, rfl, hh, ⟨role, hr, hrole⟩, ⟨t, he, htr⟩⟩
          · simp only [if_neg hrole]
            refine iff_of_false (by simp) ?_
            rintro ⟨msg, hm, -, ⟨r2, hr2, hrole2⟩, -⟩
            obtain rfl : m = msg := by injection hm
            rw [hr] at hr2
            obtain rfl : role = r2 := by injection hr2
            exact hrole hrole2
        | null => simp [hr]
        | bool b => simp [hr]
        | num n => simp [hr]
        | arr xs => simp [hr]
        | obj kvs => simp [hr]
  · intro c hc
    rcases hc with h | h <;> simp [extract_text, h]

/-- C3 witness: a one-node chain whose node carries an emittable user
message. -/
theorem c3_witness :
    processChain
      [("a", { parent := none, children := none,
               message := some { author_role := some (.str "user"),
                                 content := some { content_type := some (.str "text"),
                                                   parts := some [.str "Hello"], text := none },
                                 metadata := none, create_time := none } })]
      ["a"] = .ok [{ role := "user", text := "Hello", create_time := none, model := none }] := by
  have h := c3_emission_iff.1
    [("a", { parent := none, children := none,
             message := some { author_role := some (.str "user"),
                               content := some { content_type := some (.str "text"),
                                                 parts := some [.str "Hello"], text := none },
                               metadata := none, create_time := none } })]
    ["a"] (by intro id hid; fin_cases hid; decide)
  exact h.trans rfl

/-- C5: for a `multimodal_text` message the extracted text is the
newline-join of the per-part renderings — strings as-is, structured
parts with a truthy `asset_pointer` as an image reference embedding the
pointer, other structured parts as the generic placeholder (parts of any
other shape contribute nothing). -/
theorem c5_multimodal_extract (c : PyContent) (ps : List JVal)
    (h1 : c.content_type = some (.str "multimodal_text")) (h2 : c.parts = some ps) :
    extract_text c = some (String.intercalate "\n" (ps.filterMap mmRenderSpec)) := by
  simp [extract_text, h1, h2, mmParts_eq_filterMap]

/-- C5 witness: a single part `{"asset_pointer": "file-abc"}` yields an
image-reference placeholder embedding `file-abc`. -/
theorem c5_witness :
    extract_text { content_type := some (.str "multimodal_text"),
                   parts := some [.obj [("asset_pointer", .str "file-abc")]], text := none }
      = some "![image](file-abc)" := by
  have h := c5_multimodal_extract
    { content_type := some (.str "multimodal_text"),
      parts := some [.obj [("asset_pointer", .str "file-abc")]], text := none }
    [.obj [("asset_pointer", .str "file-abc")]] rfl rfl
  exact h.trans rfl

/-- C10: in a `multimodal_text` message, parts that are neither strings
nor structured (dict) entries are silently dropped — extraction equals
extraction over only the string/dict parts, with no placeholder and no
separator for the dropped ones. -/
theorem c10_nonstr_nondict_dropped (c : PyContent) (ps : List JVal)
    (h1 : c.content_type = some (.str "multimodal_text")) (h2 : c.parts = some ps) :
    extract_text c = extract_text { c with parts := some (ps.filter strOrDict) } := by
  simp [extract_text, h1, h2, mmParts_filter]

/-- C10 witness: a number and a `null` part contribute nothing. -/
theorem c10_witness :
    extract_text { content_type := some (.str "multimodal_text"),
                   parts := some [.num 5, .str "a", .null], text := none }
      = extract_text { content_type := some (.str "multimodal_text"),
                       parts := some [.str "a"], text := none } := by
  have h := c10_nonstr_nondict_dropped
    { content_type := some (.str "multimodal_text"),
      parts := some [.num 5, .str "a", .null], text := none }
    [.num 5, .str "a", .null] rfl rfl
  exact h.trans rfl

/-- C6 counterexample: a non-numeric, non-`None` input — here a string —
makes `ts_to_str` raise: `datetime.fromtimestamp` raises `TypeError`,
which is not in the caught `(ValueError, OSError, OverflowError)` and
propagates. -/
theorem c6_counterexample :
    ts_to_str (.str "not a timestamp") = .error .typeError := rfl

/-- C6 (amended): for every absent (`None`) or numeric input,
`ts_to_str` never raises: it returns the timestamp formatted as
`YYYY-MM-DD HH:MM:SS` at the fixed UTC+8 offset when the timestamp is
representable — both the intermediate UTC civil datetime and the UTC+8
result within years 1..9999, equivalently
`-62135596800 ≤ ts ≤ 253402271999` — and `None` both when the input is
absent and when the timestamp is out of that range.  (A non-numeric,
non-`None` input instead raises `TypeError`.) -/
theorem c6_ts_to_str_total (v : JVal)
    (h : v = .null ∨ ∃ n : Int, v = .num n) :
    ∃ r, ts_to_str v = .ok r ∧
      (v = .null → r = none) ∧
      (∀ n : Int, v = .num n →
        (r.isSome ↔ tsInRange n = true) ∧
        (tsInRange n = true → r = some (fmtTsCST n)) ∧
        (tsInRange n = false → r = none)) := by
  rcases h with rfl | ⟨n, rfl⟩
  · exact ⟨none, rfl, fun _ => rfl, fun n h => by cases h⟩
  · by_cases hr : tsInRange n
    · refine ⟨some (fmtTsCST n), ?_, ?_, ?_⟩
      · rw [ts_to_str_num, if_pos hr]
      · intro h; cases h
      · intro k hk
        obtain rfl : n = k := by injection hk
        exact ⟨by simp [hr], fun _ => rfl, fun hf => by rw [hr] at hf; cases hf⟩
    · refine ⟨none, ?_, ?_, ?_⟩
      · rw [ts_to_str_num, if_neg hr]
      · intro h; cases h
      · intro k hk
        obtain rfl : n = k := by injection hk
        refine ⟨by simp [hr], fun ht => absurd ht hr, fun _ => rfl⟩

/-- C6 witness: the Unix epoch formats to `08:00:00` at UTC+8, and the
representability boundary sits at the intermediate UTC datetime —
`-62135596800` (UTC 0001-01-01 00:00:00) still formats, one second
earlier degrades to `None` even though its UTC+8 civil year is 1. -/
theorem c6_witness :
    ts_to_str (.num 0) = .ok (some "1970-01-01 08:00:00") ∧
    (∃ s, ts_to_str (.num (-62135596800)) = .ok (some s)) ∧
    ts_to_str (.num (-62135596801)) = .ok none := by
  refine ⟨?_, ?_, ?_⟩
  · obtain ⟨r, h1, _, h3⟩ := c6_ts_to_str_total (.num 0) (Or.inr ⟨0, rfl⟩)
    have h4 := (h3 0 rfl).2.1 (by decide)
    rw [h1, h4]
    have h5 : fmtTsCST 0 = "1970-01-01 08:00:00" := by decide
    rw [h5]
  · obtain ⟨r, h1, _, h3⟩ := c6_ts_to_str_total (.num (-62135596800))
      (Or.inr ⟨-62135596800, rfl⟩)
    have h4 := (h3 (-62135596800) rfl).2.1 (by decide)
    exact ⟨fmtTsCST (-62135596800), by rw [h1, h4]⟩
  · obtain ⟨r, h1, _, h3⟩ := c6_ts_to_str_total (.num (-62135596801))
      (Or.inr ⟨-62135596801, rfl⟩)
    have h4 := (h3 (-62135596801) rfl).2.2 (by decide)
    rw [h1, h4]

/-- C7: whenever the chain builder succeeds, rendering succeeds and its
second element is the metadata block: one line per present (truthy)
field, in exactly the order creation time, update time, model slug,
conversation id (in inline code), message count — the count line always
present, its value the length of the chain builder's record list. -/
theorem c7_meta_block (data : PyDoc) (stem : String) (recs : List Record)
    (hb : build_conversation_chain data = .ok recs) :
    ∃ ct ut tail,
      ts_to_str (optIntJVal data.create_time) = .ok ct ∧
      ts_to_str (optIntJVal data.update_time) = .ok ut ∧
      render_messages recs = .ok tail ∧
      render_lines data stem = .ok
        (["# " ++ pyStr (data.title.getD (.str stem)) ++ "\n",
          String.intercalate "\n"
            ((if truthyOptStr ct then ["- **创建时间**: " ++ ct.getD ""] else []) ++
             (if truthyOptStr ut then ["- **更新时间**: " ++ ut.getD ""] else []) ++
             (if truthy (data.default_model_slug.getD (.str "")) then
               ["- **模型**: " ++ pyStr (data.default_model_slug.getD (.str ""))] else []) ++
             (if truthy (data.conversation_id.getD (.str "")) then
               ["- **会话 ID**: `" ++ pyStr (data.conversation_id.getD (.str "")) ++ "`"] else []) ++
             ["- **消息数**: " ++ toString recs.length]),
          "", "---\n"] ++ tail) := by
  obtain ⟨ct, hct⟩ := ts_to_str_optInt_ok data.create_time
  obtain ⟨ut, hut⟩ := ts_to_str_optInt_ok data.update_time
  obtain ⟨tail, htail⟩ := render_messages_ok recs
  refine ⟨ct, ut, tail, hct, hut, htail, ?_⟩
  simp only [render_lines, hct, hut, hb, htail]
  by_cases h1 : truthyOptStr ct <;> by_cases h2 : truthyOptStr ut <;>
    by_cases h3 : truthy (data.default_model_slug.getD (.str "")) <;>
    by_cases h4 : truthy (data.conversation_id.getD (.str "")) <;>
    simp [h1, h2, h3, h4]

/-- The empty document used by the C7 witness. -/
def c7Doc : PyDoc :=
  { mapping := none, current_node := none, title := none, create_time := none,
    update_time := none, default_model_slug := none, conversation_id := none }

/-- C7 witness: zero qualifying messages still renders a heading, a
metadata block whose count line says `0`, and a separator. -/
theorem c7_witness :
    render_lines c7Doc "conv" = .ok ["# conv\n", "- **消息数**: 0", "", "---\n"] := by
  obtain ⟨ct, ut, tail, hct, hut, htail, hout⟩ := c7_meta_block c7Doc "conv" [] rfl
  have hct2 : Except.ok (ε := PyErr) (some ("" : String)) ≠ Except.ok none := by
    intro h; injection h with h2; cases h2
  have hctn : ct = none := by
    have h0 : ts_to_str (optIntJVal c7Doc.create_time) = .ok none := rfl
    rw [h0] at hct
    injection hct with h2
    exact h2.symm
  have hutn : ut = none := by
    have h0 : ts_to_str (optIntJVal c7Doc.update_time) = .ok none := rfl
    rw [h0] at hut
    injection hut with h2
    exact h2.symm
  have htn : tail = [] := by
    have h0 : render_messages [] = .ok ([] : List String) := rfl
    rw [h0] at htail
    injection htail with h2
    exact h2.symm
  subst hctn; subst hutn; subst htn
  simpa using hout

/-- C8: the rendered subheading of a record is the role label — a
distinct human-friendly label for `user`/`assistant`/`tool`, the raw
role string otherwise — followed by small annotation text carrying the
formatted timestamp when present and the model identifier only for the
assistant role (and only when truthy), joined by a separator; the model
identifier never appears in the annotations of a non-assistant record. -/
theorem c8_message_subheading :
    (roleLabel "user" = "👤 User" ∧ roleLabel "assistant" = "🤖 Assistant" ∧
      roleLabel "tool" = "🔧 Tool") ∧
    (∀ r, r ≠ "user" → r ≠ "assistant" → r ≠ "tool" → roleLabel r = r) ∧
    (∀ (m : Record) (last : Bool) (t : Option String),
      ts_to_str (optIntJVal m.create_time) = .ok t →
      render_message m last = .ok
        (["## " ++ roleLabel m.role ++ subAnnot (timeAnn t ++ modelAnn m), "", m.text, ""]
          ++ (if last then [] else ["---\n"]))) ∧
    (∀ m : Record, m.role ≠ "assistant" → modelAnn m = []) := by
  refine ⟨⟨rfl, rfl, rfl⟩, ?_, ?_, ?_⟩
  · intro r h1 h2 h3
    simp [roleLabel, h1, h2, h3]
  · intro m last t ht
    simp only [render_message, ht]
    cases t with
    | none =>
      by_cases h : m.model.getD "" ≠ "" ∧ m.role = "assistant" <;>
        simp [timeAnn, modelAnn, subAnnot, h, String.append_empty]
    | some s =>
      by_cases hs : s = "" <;>
        by_cases h : m.model.getD "" ≠ "" ∧ m.role = "assistant" <;>
          simp [timeAnn, modelAnn, subAnnot, hs, h, String.append_empty]
  · intro m hm
    simp [modelAnn, hm]

/-- C8 witness: the spec's scenario assistant record — annotation
carries `model-x`. -/
theorem c8_witness :
    render_message { role := "assistant", text := "Hi there", create_time := none,
                     model := some "model-x" } false
      = .ok ["## 🤖 Assistant  <sub>model-x</sub>", "", "Hi there", "", "---\n"] := by
  have h := c8_message_subheading.2.2.1
    { role := "assistant", text := "Hi there", create_time := none, model := some "model-x" }
    false none rfl
  have h2 : (["## " ++ roleLabel "assistant" ++ subAnnot (timeAnn none ++
      modelAnn { role := "assistant", text := "Hi there", create_time := none,
                 model := some "model-x" }), "", "Hi there", ""]
      ++ (if false then [] else ["---\n"]))
      = ["## 🤖 Assistant  <sub>model-x</sub>", "", "Hi there", "", "---\n"] := by
    decide
  exact h.trans (congrArg Except.ok h2)

/-- The first rendered line is always the title heading. -/
theorem render_lines_head (data : PyDoc) (stem : String) (ls : List String)
    (h : render_lines data stem = .ok ls) :
    ls.head? = some ("# " ++ pyStr (data.title.getD (.str stem)) ++ "\n") := by
  obtain ⟨ct, hct⟩ := ts_to_str_optInt_ok data.create_time
  obtain ⟨ut, hut⟩ := ts_to_str_optInt_ok data.update_time
  simp only [render_lines, hct, hut] at h
  cases hb : build_conversation_chain data with
  | error e => rw [hb] at h; cases h
  | ok recs =>
    rw [hb] at h
    obtain ⟨tail, htail⟩ := render_messages_ok recs
    simp only [htail] at h
    obtain rfl : _ = ls := by injection h
    split <;> simp

/-- C9: the fallback to the derived identifier (the file stem) applies
only when the `title` key is entirely absent; a `title` key present with
value `null` renders the heading `# None`, not the stem. -/
theorem c9_title_null (data : PyDoc) (stem : String) (ls : List String)
    (h : render_lines data stem = .ok ls) :
    (data.title = some .null → ls.head? = some "# None\n") ∧
    (data.title = none → ls.head? = some ("# " ++ stem ++ "\n")) := by
  constructor
  · intro hT
    have h0 := render_lines_head data stem ls h
    rw [hT] at h0
    exact h0
  · intro hT
    have h0 := render_lines_head data stem ls h
    rw [hT] at h0
    exact h0

/-- The document with a `null` title used by the C9 witness. -/
def c9Doc : PyDoc :=
  { mapping := none, current_node := none, title := some .null, create_time := none,
    update_time := none, default_model_slug := none, conversation_id := none }

/-- C9 witness: a document whose `title` key holds `null` renders the
heading `# None`, not the stem. -/
theorem c9_witness :
    (render_lines c9Doc "stem" = .ok ["# None\n", "- **消息数**: 0", "", "---\n"]) ∧
    (["# None\n", "- **消息数**: 0", "", "---\n"] : List String).head? = some "# None\n" := by
  have h0 : render_lines c9Doc "stem" = .ok ["# None\n", "- **消息数**: 0", "", "---\n"] := rfl
  exact ⟨h0, (c9_title_null c9Doc "stem" _ h0).1 rfl⟩
